import Mathlib

/-!
Verification of the qarbon exception-plugin chain and error-formatter
registry (`qarbon/exceptionplugin.py` and
`qarbon/qt/gui/exceptionwidget.py`).

Modelling conventions:
* A Python call that may raise is embedded as `Except Fault α`; `.error f`
  means the call raised the exception `f` and the exception is propagating.
* Python truthiness of handler results is embedded by `PyRet` (a handler
  may return `None`, which is falsy, or a proper boolean).
* The `exc_info` triple `(err_type, err_value, err_traceback)` is embedded
  as `ExcInfo`; the chain in `exceptionplugin.py` never inspects it, it is
  only passed along.
* In the source, a plugin's `_target` and the elements of a
  `MultiplexExceptionPlugin` are arbitrary callables invoked as
  `target(*exc_info)`; a callable excepthook is therefore embedded
  semantically as a function `ExcInfo → Except Fault PyRet`.  A plugin
  object is the composition of these functions: the `__call__` of a
  `BaseExceptionPlugin` subclass with handle body `h` and target `t` is
  `BaseExceptionPlugin.call h t`; the `__call__` of a
  `MultiplexExceptionPlugin` with children `cs` and target `t` is
  `BaseExceptionPlugin.call (MultiplexExceptionPlugin.handle cs) t`
  (multiplex inherits `__call__` from the base class).
-/

/-- An exception object raised inside a handler body (opaque identifier). -/
abbrev Fault := Nat

/-- The value a Python exception hook returns: either `None` or a bool
(`__MessageDialogExceptionPlugin.handle` has `return` paths with no value,
and `sys.__excepthook__` returns `None`). -/
inductive PyRet where
  | none
  | bool (b : Bool)
deriving DecidableEq, Repr

/-- Python truthiness of a handler result: `None` is falsy. -/
def PyRet.truthy : PyRet → Bool
  | .none => false
  | .bool b => b

/-- The `(err_type, err_value, err_traceback)` triple handed to an
excepthook, each slot possibly `None` (opaque identifiers: the chain code
in `exceptionplugin.py` never looks inside the triple). -/
structure ExcInfo where
  etype : Option Nat
  evalue : Option Nat
  etraceback : Option Nat
deriving DecidableEq, Repr

/-- A callable excepthook: invoked on the `exc_info` triple, it either
raises (`.error`) or returns a value (`.ok`). -/
abbrev Callable := ExcInfo → Except Fault PyRet

/-- `BaseExceptionPlugin.__call__` (exceptionplugin.py lines 35-39):
`result = self.handle(*exc_info); if result and self._target is not None:
return self._target(*exc_info); return result`.  `handle` is the method
body of the plugin (possibly overridden by a subclass) and `target` is the
`_target` attribute set by `__init__`.  There is no try/except: an
exception raised by `handle` (or by the target) propagates out. -/
def BaseExceptionPlugin.call (handle : Callable) (target : Option Callable)
    (info : ExcInfo) : Except Fault PyRet :=
  match handle info with
  | .error f => .error f
  | .ok result =>
    match target, result.truthy with
    | some tgt, true => tgt info
    | some _, false => .ok result
    | none, _ => .ok result

/-- `MultiplexExceptionPlugin.handle` (exceptionplugin.py lines 55-60):
`for target in self: ret = target(*exc_info); if not ret: return False;
return True`.  The children are the list elements, each invoked as a
callable; a child that raises lets the exception propagate (no try/except
around the loop body). -/
def MultiplexExceptionPlugin.handle : List Callable → ExcInfo → Except Fault PyRet
  | [], _ => .ok (.bool true)
  | c :: rest, info =>
    match c info with
    | .error f => .error f
    | .ok ret =>
      if ret.truthy then MultiplexExceptionPlugin.handle rest info
      else .ok (.bool false)

/-- The loop of `MultiplexExceptionPlugin.handle` instrumented with the
number of children that were actually invoked before the loop returned or
the exception escaped. -/
def MultiplexExceptionPlugin.handleCount : List Callable → ExcInfo → Nat
  | [], _ => 0
  | c :: rest, info =>
    match c info with
    | .error _ => 1
    | .ok ret =>
      if ret.truthy then MultiplexExceptionPlugin.handleCount rest info + 1
      else 1

/-- `BaseExceptionPlugin.__call__` instrumented with the number of times
`self._target` was invoked (0 or 1). -/
def BaseExceptionPlugin.callWithDelegateCount (handle : Callable)
    (target : Option Callable) (info : ExcInfo) : Except Fault PyRet × Nat :=
  match handle info with
  | .error f => (.error f, 0)
  | .ok result =>
    match target, result.truthy with
    | some tgt, true => (tgt info, 1)
    | some _, false => (.ok result, 0)
    | none, _ => (.ok result, 0)

/-- The default `BaseExceptionPlugin.handle` (exceptionplugin.py lines
41-44): calls `sys.__excepthook__` (which prints the traceback to the
standard error stream and returns `None`) and then returns `True`. -/
def BaseExceptionPlugin.handle : Callable := fun _ => .ok (.bool true)

/-!
Error-formatter registry (`qarbon/qt/gui/exceptionwidget.py`, class
`ErrorWidget`).

* An error kind (a Python exception class) is an opaque identifier
  `Kind`; the class hierarchy enters only through a parameter
  `anc : Kind → Kind → Bool` embedding `issubclass`: `anc q k = true`
  means `issubclass(q, k)` holds, i.e. `k` is an ancestor-or-equal of `q`.
* A Python dict is embedded as an association list in insertion order
  (`dictInsert` is last-write-wins per exact key, appending new keys).
* Whether `import PyTango` succeeds is the parameter `pytango`, and the
  `PyTango.DevFailed` class is the parameter `devFailed`.
-/

/-- An error-kind identifier (a Python exception class). -/
abbrev Kind := Nat

/-- A formatter class: `BaseErrorFormatterPlugin` (the default),
`TangoErrorFormatterPlugin`, or a user-supplied formatter class. -/
inductive ErrorFormatter where
  | base
  | tango
  | user (n : Nat)
deriving DecidableEq, Repr

/-- `d[k] = f` on a dict embedded as an insertion-ordered association
list: overwrite in place if `k` is present, append otherwise. -/
def dictInsert : List (Kind × ErrorFormatter) → Kind → ErrorFormatter →
    List (Kind × ErrorFormatter)
  | [], k, f => [(k, f)]
  | (k', f') :: rest, k, f =>
    if k' = k then (k, f) :: rest else (k', f') :: dictInsert rest k f

namespace ErrorWidget

/-- `ErrorWidget.getErrorFormatters` (exceptionwidget.py lines 595-603):
a static method that builds and returns a fresh dict on every call —
`result = {}`, then `result[PyTango.DevFailed] = TangoErrorFormatterPlugin`
if `import PyTango` succeeds.  There is no cache: the returned dict is a
new object each time, so nothing assigned into a previously returned dict
is ever seen again. -/
def getErrorFormatters (pytango : Bool) (devFailed : Kind) :
    List (Kind × ErrorFormatter) :=
  if pytango then [(devFailed, .tango)] else []

/-- `ErrorWidget.registerErrorHandler` (exceptionwidget.py lines 605-607):
`klass.getErrorFormatters()[err_type] = err_handler`.  The assignment
mutates the dict freshly built by `getErrorFormatters`; the class stores
that dict nowhere, so the updated dict — returned here so that theorems
can inspect it — is discarded and the registration is lost. -/
def registerErrorHandler (pytango : Bool) (devFailed : Kind)
    (err_type : Kind) (err_handler : ErrorFormatter) :
    List (Kind × ErrorFormatter) :=
  dictInsert (getErrorFormatters pytango devFailed) err_type err_handler

/-- The loop of `ErrorWidget.findErrorFormatter` (exceptionwidget.py lines
618-621) over a given formatter dict: `for exc, h_klass in (...).items():
if issubclass(err_type, exc): return h_klass`, and
`return BaseErrorFormatterPlugin` when the loop finds no match. -/
def findFormatterScan (anc : Kind → Kind → Bool) :
    List (Kind × ErrorFormatter) → Kind → ErrorFormatter
  | [], _ => .base
  | (exc, h_klass) :: rest, err_type =>
    if anc err_type exc then h_klass else findFormatterScan anc rest err_type

/-- `ErrorWidget.findErrorFormatter` (exceptionwidget.py lines 609-621):
runs the ancestor scan over the dict returned by a fresh call to
`getErrorFormatters`. -/
def findErrorFormatter (anc : Kind → Kind → Bool) (pytango : Bool)
    (devFailed : Kind) (err_type : Kind) : ErrorFormatter :=
  findFormatterScan anc (getErrorFormatters pytango devFailed) err_type

end ErrorWidget

/-!
Error formatters (`qarbon/qt/gui/exceptionwidget.py`, classes
`BaseErrorFormatterPlugin` and `TangoErrorFormatterPlugin`).

* An exception class is embedded as `ExcType` (carrying its `__name__`);
  the `err_type` argument is `Option ExcType` since it may be `None`.
* An exception value is `PyExcValue`: an ordinary exception carrying a
  message, or a `PyTango.DevFailed` carrying its `args` sequence of
  `DevError` structures (fields `origin`, `reason`, `desc`).
* A traceback is the list of its formatted stack-frame lines.
* A field producer that can raise (attribute or index error on the error
  value) returns `Option String`, `none` meaning the call raised; the
  producers whose bodies contain no fallible operation return `String`.
* The optional pygments dependency is a `PygmentsEnv`: whether the import
  succeeded, the `highlight` function and the formatter style sheet.
-/

/-- A Python exception class: only its `__name__` is consulted. -/
structure ExcType where
  name : String
deriving DecidableEq, Repr

/-- One `DevError` element of a `PyTango.DevFailed.args` sequence. -/
structure DevError where
  origin : String
  reason : String
  desc : String
deriving DecidableEq, Repr

/-- A Python exception value: an ordinary exception with a message, or a
`PyTango.DevFailed` with its `args` sequence. -/
inductive PyExcValue where
  | simple (msg : String)
  | tango (args : List DevError)
deriving DecidableEq, Repr

/-- `str(value)` for an exception value.  For an ordinary exception this
is its message; the rendering of a `DevFailed` is irrelevant here (no
theorem in this file evaluates it). -/
def strPyValue : PyExcValue → String
  | .simple msg => msg
  | .tango _ => "DevFailed"

/-- `"".join(traceback.format_exception_only(etype, value))` of the Python
standard library (an external collaborator of this module):
with `etype` `None` the final line is `"%s\n" % etype`, i.e. `"None\n"`
when `value` is `None` or stringifies empty, and `"None: <msg>\n"`
otherwise; with a class it is `"<name>\n"` or `"<name>: <msg>\n"`. -/
def formatExceptionOnly (etype : Option ExcType) (value : Option PyExcValue) :
    String :=
  let stype := match etype with
    | none => "None"
    | some t => t.name
  match value with
  | none => stype ++ "\n"
  | some v =>
    let s := strPyValue v
    if s = "" then stype ++ "\n" else stype ++ ": " ++ s ++ "\n"

/-- `"".join(traceback.format_exception(etype, value, tb))`: the traceback
header and frame lines when `tb` is truthy (a non-empty frame list),
followed by `format_exception_only`. -/
def formatException (etype : Option ExcType) (value : Option PyExcValue)
    (tb : Option (List String)) : String :=
  (match tb with
   | none => ""
   | some frames =>
     if frames.isEmpty then ""
     else "Traceback (most recent call last):\n" ++ String.join frames) ++
  formatExceptionOnly etype value

/-- The optional pygments capability: `available` is whether
`import pygments` succeeded, `highlight` is
`pygments.highlight(text, PythonTracebackLexer(), HtmlFormatter())` and
`styleDefs` is `HtmlFormatter().get_style_defs()`. -/
structure PygmentsEnv where
  available : Bool
  highlight : String → String
  styleDefs : String

namespace BaseErrorFormatterPlugin

/-- `BaseErrorFormatterPlugin.toTitle` (exceptionwidget.py lines 247-251):
`"Unhandled Error"` when `err_type` is `None`, else
`"Unhandled Error (<err_type.__name__>)"`. -/
def toTitle (err_type : Option ExcType) (_err_value : Option PyExcValue)
    (_err_traceback : Option (List String)) : String :=
  match err_type with
  | none => "Unhandled Error"
  | some t => "Unhandled Error (" ++ t.name ++ ")"

/-- `BaseErrorFormatterPlugin.toErrorHtml` (lines 253-254):
`"".join(traceback.format_exception_only(err_type, err_value))`. -/
def toErrorHtml (err_type : Option ExcType) (err_value : Option PyExcValue)
    (_err_traceback : Option (List String)) : String :=
  formatExceptionOnly err_type err_value

/-- `BaseErrorFormatterPlugin.toDetailedErrorHtml` (lines 256-259): the
error string wrapped in `<html><body><pre>...</pre></body></html>`. -/
def toDetailedErrorHtml (err_type : Option ExcType)
    (err_value : Option PyExcValue) (err_traceback : Option (List String)) :
    String :=
  "<html><body><pre>" ++ toErrorHtml err_type err_value err_traceback ++
    "</pre></body></html>"

/-- `BaseErrorFormatterPlugin.toOriginHtml` (lines 261-277): an html
document holding the full formatted traceback, syntax-highlighted when
pygments is available and wrapped in `<pre>` otherwise. -/
def toOriginHtml (env : PygmentsEnv) (err_type : Option ExcType)
    (err_value : Option PyExcValue) (err_traceback : Option (List String)) :
    String :=
  let exc_info := formatException err_type err_value err_traceback
  let style := if env.available then env.styleDefs else ""
  let html := "<html><head><style type=\"text/css\">" ++ style ++
    "</style></head><body>"
  let html := html ++
    (if env.available then env.highlight exc_info
     else "<pre>" ++ exc_info ++ "</pre>")
  html ++ "</body></html>"

/-- `BaseErrorFormatterPlugin.translateError` (lines 235-245): the
four-tuple (title, error html, detailed error html, origin html). -/
def translateError (env : PygmentsEnv) (err_type : Option ExcType)
    (err_value : Option PyExcValue) (err_traceback : Option (List String)) :
    String × String × String × String :=
  (toTitle err_type err_value err_traceback,
   toErrorHtml err_type err_value err_traceback,
   toDetailedErrorHtml err_type err_value err_traceback,
   toOriginHtml env err_type err_value err_traceback)

end BaseErrorFormatterPlugin

namespace TangoErrorFormatterPlugin

/-- `TangoErrorFormatterPlugin.toTitle` (lines 284-285): always
`"Tango Error"`. -/
def toTitle (_err_type : Option ExcType) (_err_value : Option PyExcValue)
    (_err_traceback : Option (List String)) : String :=
  "Tango Error"

/-- `TangoErrorFormatterPlugin.toErrorHtml` (lines 287-288):
`err_value.args[0].desc`.  Raises (`none`) when `err_value` is `None`
(attribute error on `args`), when it is not a `DevFailed` (its `args`
elements have no `desc`), or when `args` is empty (index error). -/
def toErrorHtml (_err_type : Option ExcType) (err_value : Option PyExcValue)
    (_err_traceback : Option (List String)) : Option String :=
  match err_value with
  | some (.tango (de :: _)) => some de.desc
  | _ => none

/-- One `<pre>{reason}: {desc}</pre>{origin}<hr>` block of
`TangoErrorFormatterPlugin.toDetailedErrorHtml`, with the origin
highlighted when the reason has the `PyDs_` marker and pygments is
available. -/
def devErrorBlock (env : PygmentsEnv) (de : DevError) : String :=
  let origin :=
    if de.reason.startsWith "PyDs_" && env.available then
      env.highlight de.origin
    else "<pre>" ++ de.origin ++ "</pre>"
  "<pre>" ++ de.reason ++ ": " ++ de.desc ++ "</pre>" ++ origin ++ "<hr>"

/-- `TangoErrorFormatterPlugin.toDetailedErrorHtml` (lines 290-308): one
block per element of `err_value.args` inside an html document.  Raises
(`none`) when `err_value` is `None` or not a `DevFailed`. -/
def toDetailedErrorHtml (env : PygmentsEnv) (_err_type : Option ExcType)
    (err_value : Option PyExcValue) (_err_traceback : Option (List String)) :
    Option String :=
  match err_value with
  | some (.tango args) =>
    let style := if env.available then env.styleDefs else ""
    some ("<html><head><style type=\"text/css\">" ++ style ++
      "</style></head><body>" ++
      String.join (args.map (devErrorBlock env)) ++ "</body></html>")
  | _ => none

/-- `TangoErrorFormatterPlugin.toOriginHtml` (lines 310-325): same html
document as the base formatter's origin view. -/
def toOriginHtml (env : PygmentsEnv) (err_type : Option ExcType)
    (err_value : Option PyExcValue) (err_traceback : Option (List String)) :
    String :=
  let exc_info := formatException err_type err_value err_traceback
  let style := if env.available then env.styleDefs else ""
  let html := "<html><head><style type=\"text/css\">" ++ style ++
    "</style></head><body>"
  let html := html ++
    (if env.available then env.highlight exc_info
     else "<pre>" ++ exc_info ++ "</pre>")
  html ++ "</body></html>"

end TangoErrorFormatterPlugin

/-!
The `__MessageDialogExceptionPlugin` of `exceptionwidget.py` (lines
801-847): an excepthook that shows the error in a single lazily-created,
reused `ErrorDialog`.

* The class-level singleton `MSG_BOX` is `Option MsgBoxState`; the only
  piece of dialog state the handler consults is the state of the panel's
  "checkbox" (the do-not-show-again box, initialised unchecked by
  `ErrorWidget.__init__`).
* `Application()` (qt/gui/application.py lines 34-95) returns the existing
  `QApplication` instance or creates one — it never returns `None`; the
  handler nevertheless guards `if app is None: return`, so the handler is
  modelled on an `Option App` input.
* A terminal action visible to the user: `rendered` is `msgbox.show()`,
  `passThrough` is an invocation of the platform default excepthook
  (`sys.__excepthook__`, which prints the raw traceback to the standard
  error stream and returns `None`).
-/

/-- A `QApplication` instance (opaque). -/
abbrev App := Unit

/-- The dialog state the handler consults: the do-not-show-again checkbox
of the reused `ErrorDialog`'s panel. -/
structure MsgBoxState where
  checkboxChecked : Bool
deriving DecidableEq, Repr

/-- A user-visible terminal action of one uncaught-error dispatch. -/
inductive TerminalAction where
  | rendered
  | passThrough
deriving DecidableEq, Repr

namespace MessageDialogExceptionPlugin

/-- `__MessageDialogExceptionPlugin._getMessageBox` (lines 819-833):
create the singleton dialog on first use (checkbox starts unchecked),
otherwise update the existing one with `setError`; return `None` instead
of the box when the checkbox is checked.  Result: (new singleton state,
box returned or `None`). -/
def getMessageBox : Option MsgBoxState →
    Option MsgBoxState × Option MsgBoxState
  | none => (some ⟨false⟩, some ⟨false⟩)
  | some b => (some b, if b.checkboxChecked then none else some b)

/-- `__MessageDialogExceptionPlugin.handle` (lines 835-847): bare `return`
(i.e. `None`) when `Application()` yields no app or when the message box
was suppressed; otherwise show the box and return `True`.  Result:
(new singleton state, returned value, terminal actions performed). -/
def handle (app : Option App) (st : Option MsgBoxState) :
    Option MsgBoxState × PyRet × List TerminalAction :=
  match app with
  | none => (st, .none, [])
  | some _ =>
    let (st', box) := getMessageBox st
    match box with
    | none => (st', .none, [])
    | some _ => (st', .bool true, [.rendered])

/-- `BaseExceptionPlugin.__call__` applied to this plugin: when the handle
result is truthy and a target is configured, the target is invoked — here
the target is the platform default excepthook, which prints the raw trace
(a `passThrough` action) and returns `None`. -/
def call (app : Option App) (st : Option MsgBoxState) (hasTarget : Bool) :
    Option MsgBoxState × PyRet × List TerminalAction :=
  let (st', r, acts) := handle app st
  if r.truthy && hasTarget then (st', .none, acts ++ [.passThrough])
  else (st', r, acts)

/-- Whether the singleton dialog state suppresses display (the
do-not-show-again checkbox is checked). -/
def suppressed : Option MsgBoxState → Bool
  | none => false
  | some b => b.checkboxChecked

end MessageDialogExceptionPlugin

/-!
Theorems.  Helper lemmas come first, then one theorem per claim (with a
witness when the theorem carries hypotheses).
-/

/-- A prefix of children whose invocations all return truthy results does
not affect the multiplex loop: it scans past them. -/
theorem MultiplexExceptionPlugin.handle_append_truthy
    (cs1 rest : List Callable) (info : ExcInfo)
    (h1 : ∀ p ∈ cs1, ∃ r, p info = Except.ok r ∧ r.truthy = true) :
    MultiplexExceptionPlugin.handle (cs1 ++ rest) info =
      MultiplexExceptionPlugin.handle rest info := by
  induction cs1 with
  | nil => rfl
  | cons c cs ih =>
    obtain ⟨r, hc, ht⟩ := h1 c (List.mem_cons_self c cs)
    simp only [List.cons_append, MultiplexExceptionPlugin.handle, hc, ht,
      if_true]
    exact ih fun p hp => h1 p (List.mem_cons_of_mem c hp)


theorem MultiplexExceptionPlugin.handleCount_append_truthy
    (cs1 rest : List Callable) (info : ExcInfo)
    (h1 : ∀ p ∈ cs1, ∃ r, p info = Except.ok r ∧ r.truthy = true) :
    MultiplexExceptionPlugin.handleCount (cs1 ++ rest) info =
      cs1.length + MultiplexExceptionPlugin.handleCount rest info := by
  induction cs1 with
  | nil => simp
  | cons c cs ih =>
    obtain ⟨r, hc, ht⟩ := h1 c (List.mem_cons_self c cs)
    have ih' := ih fun p hp => h1 p (List.mem_cons_of_mem c hp)
    simp only [List.cons_append, MultiplexExceptionPlugin.handleCount, hc, ht,
      if_true, List.length_cons, List.append_eq]
    rw [ih']
    omega

theorem MultiplexExceptionPlugin.handle_eq_false_iff
    (cs : List Callable) (info : ExcInfo)
    (hok : ∀ p ∈ cs, ∃ r, p info = Except.ok r) :
    MultiplexExceptionPlugin.handle cs info = Except.ok (PyRet.bool false) ↔
      ∃ p ∈ cs, ∃ r, p info = Except.ok r ∧ r.truthy = false := by
  induction cs with
  | nil => simp [MultiplexExceptionPlugin.handle]
  | cons c cs ih =>
    obtain ⟨r, hc⟩ := hok c (List.mem_cons_self c cs)
    have ih' := ih fun p hp => hok p (List.mem_cons_of_mem c hp)
    simp only [MultiplexExceptionPlugin.handle, hc]
    cases hr : r.truthy with
    | false =>
      simp only [hr, Bool.false_eq_true, if_false]
      constructor
      · intro _
        exact ⟨c, List.mem_cons_self c cs, r, hc, hr⟩
      · intro _
        trivial
    | true =>
      simp only [hr, if_true, ih']
      constructor
      · rintro ⟨p, hp, r', hpr, hr'⟩
        exact ⟨p, List.mem_cons_of_mem c hp, r', hpr, hr'⟩
      · rintro ⟨p, hp, r', hpr, hr'⟩
        rcases List.mem_cons.mp hp with rfl | hp
        · rw [hc] at hpr
          injection hpr with hrr
          rw [← hrr, hr] at hr'
          simp at hr'
        · exact ⟨p, hp, r', hpr, hr'⟩

theorem MultiplexExceptionPlugin.handle_eq_true_iff
    (cs : List Callable) (info : ExcInfo)
    (hok : ∀ p ∈ cs, ∃ r, p info = Except.ok r) :
    MultiplexExceptionPlugin.handle cs info = Except.ok (PyRet.bool true) ↔
      ∀ p ∈ cs, ∃ r, p info = Except.ok r ∧ r.truthy = true := by
  induction cs with
  | nil => simp [MultiplexExceptionPlugin.handle]
  | cons c cs ih =>
    obtain ⟨r, hc⟩ := hok c (List.mem_cons_self c cs)
    have ih' := ih fun p hp => hok p (List.mem_cons_of_mem c hp)
    simp only [MultiplexExceptionPlugin.handle, hc]
    cases hr : r.truthy with
    | false =>
      simp only [hr, Bool.false_eq_true, if_false]
      constructor
      · intro h
        simp at h
      · intro h
        obtain ⟨r', hpr, hr'⟩ := h c (List.mem_cons_self c cs)
        rw [hc] at hpr
        injection hpr with hrr
        rw [← hrr, hr] at hr'
        simp at hr'
    | true =>
      simp only [hr, if_true, ih']
      constructor
      · intro h p hp
        rcases List.mem_cons.mp hp with rfl | hp
        · exact ⟨r, hc, hr⟩
        · exact h p hp
      · intro h p hp
        exact h p (List.mem_cons_of_mem c hp)

/-- Claim C3: for a multiplex plugin with child list `cs` and any error
triple, `handle` returns `False` iff some child's invocation returns a
falsy result and `True` iff every child's invocation returns a truthy
result (children assumed not to raise); children are invoked in list
order, and once a child returns a falsy result the loop stops: the result
does not depend on the children after it and the number of children
invoked is the position of the first falsy child plus one. -/
theorem multiplex_fanout_shortcircuit
    (cs cs1 cs2 cs2' : List Callable) (c : Callable) (info : ExcInfo)
    (hok : ∀ p ∈ cs, ∃ r, p info = Except.ok r)
    (h1 : ∀ p ∈ cs1, ∃ r, p info = Except.ok r ∧ r.truthy = true)
    (hc : ∃ r, c info = Except.ok r ∧ r.truthy = false) :
    (MultiplexExceptionPlugin.handle cs info = Except.ok (PyRet.bool false) ↔
      ∃ p ∈ cs, ∃ r, p info = Except.ok r ∧ r.truthy = false)
    ∧ (MultiplexExceptionPlugin.handle cs info = Except.ok (PyRet.bool true) ↔
      ∀ p ∈ cs, ∃ r, p info = Except.ok r ∧ r.truthy = true)
    ∧ MultiplexExceptionPlugin.handle (cs1 ++ c :: cs2) info =
        Except.ok (PyRet.bool false)
    ∧ MultiplexExceptionPlugin.handle (cs1 ++ c :: cs2) info =
        MultiplexExceptionPlugin.handle (cs1 ++ c :: cs2') info
    ∧ MultiplexExceptionPlugin.handleCount (cs1 ++ c :: cs2) info =
        cs1.length + 1 := by
  obtain ⟨rc, hcok, hcf⟩ := hc
  have hstep : ∀ cs0 : List Callable,
      MultiplexExceptionPlugin.handle (c :: cs0) info =
        Except.ok (PyRet.bool false) := by
    intro cs0
    simp [MultiplexExceptionPlugin.handle, hcok, hcf]
  refine ⟨MultiplexExceptionPlugin.handle_eq_false_iff cs info hok,
      MultiplexExceptionPlugin.handle_eq_true_iff cs info hok, ?_, ?_, ?_⟩
  · rw [MultiplexExceptionPlugin.handle_append_truthy cs1 _ info h1, hstep]
  · rw [MultiplexExceptionPlugin.handle_append_truthy cs1 _ info h1,
      MultiplexExceptionPlugin.handle_append_truthy cs1 _ info h1, hstep,
      hstep]
  · rw [MultiplexExceptionPlugin.handleCount_append_truthy cs1 _ info h1]
    simp [MultiplexExceptionPlugin.handleCount, hcok, hcf]

/-- Witness for claim C3: a concrete chain with a truthy child, then a
falsy child, then a child that would raise; the composite returns `False`
and only the first two children are invoked. -/
theorem multiplex_fanout_shortcircuit_witness :
    MultiplexExceptionPlugin.handle
      [fun _ => Except.ok (PyRet.bool true), fun _ => Except.ok (PyRet.bool false),
       fun _ => Except.error 3] ⟨none, none, none⟩ = Except.ok (PyRet.bool false)
    ∧ MultiplexExceptionPlugin.handleCount
      [fun _ => Except.ok (PyRet.bool true), fun _ => Except.ok (PyRet.bool false),
       fun _ => Except.error 3] ⟨none, none, none⟩ = 2 := by
  have h := multiplex_fanout_shortcircuit
    [fun _ => Except.ok (PyRet.bool true), fun _ => Except.ok (PyRet.bool false)]
    [fun _ => Except.ok (PyRet.bool true)] [fun _ => Except.error 3] []
    (fun _ => Except.ok (PyRet.bool false)) ⟨none, none, none⟩
    (by
      intro p hp
      rcases List.mem_cons.mp hp with rfl | hp
      · exact ⟨PyRet.bool true, rfl⟩
      rcases List.mem_cons.mp hp with rfl | hp
      · exact ⟨PyRet.bool false, rfl⟩
      · exact absurd hp (List.not_mem_nil p))
    (by
      intro p hp
      rcases List.mem_cons.mp hp with rfl | hp
      · exact ⟨PyRet.bool true, rfl, rfl⟩
      · exact absurd hp (List.not_mem_nil p))
    ⟨PyRet.bool false, rfl, rfl⟩
  exact ⟨h.2.2.1, h.2.2.2.2⟩

/-- Claim C10: a multiplex plugin with an empty child list returns `True`
from `handle` on every error triple, so its `__call__` (inherited from
`BaseExceptionPlugin`) invokes the configured delegate, if any, and
returns the delegate's result. -/
theorem multiplex_empty_returns_true (tgt : Callable) (info : ExcInfo) :
    MultiplexExceptionPlugin.handle [] info = Except.ok (PyRet.bool true)
    ∧ BaseExceptionPlugin.call (MultiplexExceptionPlugin.handle [])
        (some tgt) info = tgt info
    ∧ BaseExceptionPlugin.call (MultiplexExceptionPlugin.handle [])
        none info = Except.ok (PyRet.bool true) :=
  ⟨rfl, rfl, rfl⟩

/-- Claim C4: the dispatch rule of `BaseExceptionPlugin.__call__`.  When
the plugin's own `handle` result is truthy and a delegate is configured,
the delegate is invoked on the same triple and its result returned;
otherwise the plugin's own result is returned, and in particular when
`handle` returns a falsy value the delegate is never invoked (the result
is independent of the delegate and the instrumented delegate-invocation
count is 0). -/
theorem base_call_dispatch (h : Callable) (t : Option Callable)
    (tgt : Callable) (info : ExcInfo) (r : PyRet)
    (hh : h info = Except.ok r) :
    (r.truthy = false →
      BaseExceptionPlugin.call h t info = Except.ok r
      ∧ (BaseExceptionPlugin.callWithDelegateCount h t info).2 = 0)
    ∧ (r.truthy = true →
      BaseExceptionPlugin.call h (some tgt) info = tgt info
      ∧ (BaseExceptionPlugin.callWithDelegateCount h (some tgt) info).2 = 1)
    ∧ BaseExceptionPlugin.call h none info = Except.ok r
    ∧ (BaseExceptionPlugin.callWithDelegateCount h t info).1 =
        BaseExceptionPlugin.call h t info := by
  refine ⟨?_, ?_, ?_, ?_⟩
  · intro hf
    cases t <;>
      simp [BaseExceptionPlugin.call, BaseExceptionPlugin.callWithDelegateCount,
        hh, hf]
  · intro ht
    simp [BaseExceptionPlugin.call, BaseExceptionPlugin.callWithDelegateCount,
      hh, ht]
  · simp [BaseExceptionPlugin.call, hh]
  · cases t <;> cases hr : r.truthy <;>
      simp [BaseExceptionPlugin.call, BaseExceptionPlugin.callWithDelegateCount,
        hh, hr]

/-- Witness for claim C4: a plugin whose handle returns `False` with a
delegate configured returns `False` without invoking the delegate. -/
theorem base_call_dispatch_witness :
    BaseExceptionPlugin.call (fun _ => Except.ok (PyRet.bool false))
      (some (fun _ => Except.ok (PyRet.bool true))) ⟨none, none, none⟩ =
      Except.ok (PyRet.bool false)
    ∧ (BaseExceptionPlugin.callWithDelegateCount
        (fun _ => Except.ok (PyRet.bool false))
        (some (fun _ => Except.ok (PyRet.bool true))) ⟨none, none, none⟩).2 = 0 :=
  (base_call_dispatch (fun _ => Except.ok (PyRet.bool false))
    (some (fun _ => Except.ok (PyRet.bool true)))
    (fun _ => Except.ok (PyRet.bool true)) ⟨none, none, none⟩
    (PyRet.bool false) rfl).1 rfl

/-- Claim C2 is false on the code: a fault raised inside a plugin's
`handle` body is not caught at the plugin boundary.  Concretely, in a
multiplex chain whose first child's handle body raises exception `7` and
whose second child would return `True`, the top-level call yields the
propagating exception rather than a boolean, and no fallback sink is
involved. -/
theorem handler_fault_escapes_chain :
    BaseExceptionPlugin.call
      (MultiplexExceptionPlugin.handle
        [BaseExceptionPlugin.call (fun _ => Except.error 7) none,
         fun _ => Except.ok (PyRet.bool true)])
      none ⟨none, none, none⟩ = Except.error 7 := rfl

/-- Claim C2 (amended): a fault raised inside a plugin's `handle` body
propagates out of the plugin's `__call__` (there is no try/except at the
plugin boundary), and out of any enclosing multiplex chain: the faulting
plugin's delegate and the siblings after it are not invoked, and the
chain's top-level call yields the propagating exception instead of a
boolean. -/
theorem handler_fault_propagates (body : Callable) (f : Fault)
    (t tgt : Option Callable) (cs1 cs2 : List Callable) (info : ExcInfo)
    (hf : body info = Except.error f)
    (h1 : ∀ p ∈ cs1, ∃ r, p info = Except.ok r ∧ r.truthy = true) :
    BaseExceptionPlugin.call body t info = Except.error f
    ∧ BaseExceptionPlugin.call
        (MultiplexExceptionPlugin.handle
          (cs1 ++ BaseExceptionPlugin.call body t :: cs2)) tgt info =
        Except.error f
    ∧ MultiplexExceptionPlugin.handleCount
        (cs1 ++ BaseExceptionPlugin.call body t :: cs2) info =
        cs1.length + 1 := by
  have hcall : BaseExceptionPlugin.call body t info = Except.error f := by
    simp [BaseExceptionPlugin.call, hf]
  refine ⟨hcall, ?_, ?_⟩
  · have hh : MultiplexExceptionPlugin.handle
        (cs1 ++ BaseExceptionPlugin.call body t :: cs2) info =
        Except.error f := by
      rw [MultiplexExceptionPlugin.handle_append_truthy cs1 _ info h1]
      simp [MultiplexExceptionPlugin.handle, hcall]
    simp [BaseExceptionPlugin.call, hh]
  · rw [MultiplexExceptionPlugin.handleCount_append_truthy cs1 _ info h1]
    simp [MultiplexExceptionPlugin.handleCount, hcall]

/-- Witness for claim C2 (amended): the concrete faulting chain of the
counterexample, via the amended theorem. -/
theorem handler_fault_propagates_witness :
    BaseExceptionPlugin.call
      (MultiplexExceptionPlugin.handle
        [fun _ => Except.ok (PyRet.bool true),
         BaseExceptionPlugin.call (fun _ => Except.error 7) none])
      none ⟨none, none, none⟩ = Except.error 7
    ∧ MultiplexExceptionPlugin.handleCount
      [fun _ => Except.ok (PyRet.bool true),
       BaseExceptionPlugin.call (fun _ => Except.error 7) none]
      ⟨none, none, none⟩ = 2 := by
  have h := handler_fault_propagates (fun _ => Except.error 7) 7 none none
    [fun _ => Except.ok (PyRet.bool true)] [] ⟨none, none, none⟩ rfl
    (by
      intro p hp
      rcases List.mem_cons.mp hp with rfl | hp
      · exact ⟨PyRet.bool true, rfl, rfl⟩
      · exact absurd hp (List.not_mem_nil p))
  exact ⟨h.2.1, h.2.2⟩

/-- The ancestor scan passes over every entry whose kind is not an
ancestor of the queried kind. -/
theorem ErrorWidget.findFormatterScan_append_nomatch
    (anc : Kind → Kind → Bool) (xs rest : List (Kind × ErrorFormatter))
    (q : Kind) (hxs : ∀ e ∈ xs, anc q e.1 = false) :
    ErrorWidget.findFormatterScan anc (xs ++ rest) q =
      ErrorWidget.findFormatterScan anc rest q := by
  induction xs with
  | nil => rfl
  | cons e xs ih =>
    obtain ⟨k, f⟩ := e
    have hk := hxs (k, f) (List.mem_cons_self _ xs)
    simp only [List.cons_append, ErrorWidget.findFormatterScan, hk,
      Bool.false_eq_true, if_false]
    exact ih fun e he => hxs e (List.mem_cons_of_mem _ he)

/-- Claim C5: resolution precedence is first-match-wins in dict order
(the dict is embedded as an insertion-ordered association list, i.e.
registration order): when two registered kinds are both ancestors of the
queried kind and no earlier entry matches, the scan of
`findErrorFormatter` returns the formatter of whichever of the two occurs
first, regardless of which registered kind is the more specific ancestor
(no hypothesis below relates `k1` and `k2`). -/
theorem findFormatter_first_registered_wins (anc : Kind → Kind → Bool)
    (xs ys zs : List (Kind × ErrorFormatter)) (k1 k2 q : Kind)
    (f1 f2 : ErrorFormatter)
    (h1 : anc q k1 = true) (h2 : anc q k2 = true)
    (hxs : ∀ e ∈ xs, anc q e.1 = false) :
    ErrorWidget.findFormatterScan anc
      (xs ++ ((k1, f1) :: (ys ++ (k2, f2) :: zs))) q = f1
    ∧ ErrorWidget.findFormatterScan anc
      (xs ++ ((k2, f2) :: (ys ++ (k1, f1) :: zs))) q = f2 := by
  constructor
  · rw [ErrorWidget.findFormatterScan_append_nomatch anc xs _ q hxs]
    simp [ErrorWidget.findFormatterScan, h1]
  · rw [ErrorWidget.findFormatterScan_append_nomatch anc xs _ q hxs]
    simp [ErrorWidget.findFormatterScan, h2]

/-- Witness for claim C5: a two-kind hierarchy where kind `1` is a
subtype of kind `0`; with the base kind `0` registered first, the query
for kind `1` returns the formatter of kind `0` even though the entry for
kind `1` is the more specific match, and with the order swapped it
returns the formatter of kind `1`. -/
theorem findFormatter_first_registered_wins_witness :
    ErrorWidget.findFormatterScan
      (fun q k => q == k || (q == 1 && k == 0))
      [(0, ErrorFormatter.user 10), (1, ErrorFormatter.user 20)] 1 =
      ErrorFormatter.user 10
    ∧ ErrorWidget.findFormatterScan
      (fun q k => q == k || (q == 1 && k == 0))
      [(1, ErrorFormatter.user 20), (0, ErrorFormatter.user 10)] 1 =
      ErrorFormatter.user 20 :=
  findFormatter_first_registered_wins
    (fun q k => q == k || (q == 1 && k == 0)) [] [] [] 0 1 1
    (ErrorFormatter.user 10) (ErrorFormatter.user 20) rfl rfl
    (fun e he => absurd he (List.not_mem_nil e))

/-- Claim C6: when no registered entry's kind is an ancestor-or-equal of
the queried kind, the scan returns `BaseErrorFormatterPlugin`; in
particular the actual `findErrorFormatter` (whose dict holds at most the
`PyTango.DevFailed` entry) returns the default for any kind that is not a
`DevFailed` subclass. -/
theorem findFormatter_default_fallback (anc : Kind → Kind → Bool)
    (reg : List (Kind × ErrorFormatter)) (q : Kind) (pytango : Bool)
    (devFailed : Kind)
    (hr : ∀ e ∈ reg, anc q e.1 = false) (hdf : anc q devFailed = false) :
    ErrorWidget.findFormatterScan anc reg q = ErrorFormatter.base
    ∧ ErrorWidget.findErrorFormatter anc pytango devFailed q =
        ErrorFormatter.base := by
  constructor
  · have := ErrorWidget.findFormatterScan_append_nomatch anc reg [] q hr
    simpa using this
  · cases pytango <;>
      simp [ErrorWidget.findErrorFormatter, ErrorWidget.getErrorFormatters,
        ErrorWidget.findFormatterScan, hdf]

/-- Witness for claim C6: with PyTango available and `DevFailed` being
kind `0`, the query for an unrelated kind `5` returns the default
formatter, also over a registry holding an unrelated user entry. -/
theorem findFormatter_default_fallback_witness :
    ErrorWidget.findFormatterScan (fun _ _ => false)
      [(0, ErrorFormatter.user 1)] 5 = ErrorFormatter.base
    ∧ ErrorWidget.findErrorFormatter (fun _ _ => false) true 0 5 =
        ErrorFormatter.base :=
  findFormatter_default_fallback (fun _ _ => false)
    [(0, ErrorFormatter.user 1)] 5 true 0 (fun _ _ => rfl) rfl

/-- Claim C1 is a code bug: `registerErrorHandler` assigns into the dict
freshly built by the static `getErrorFormatters`, which caches nothing,
so the registration is discarded and a subsequent `findErrorFormatter`
still returns the default.  The second conjunct shows the discarded dict
itself would have resolved the registered formatter: had
`getErrorFormatters` cached its dict (as the module's sibling registry
`get_report_handlers` does), the round-trip would hold. -/
theorem registerErrorHandler_is_discarded (anc : Kind → Kind → Bool)
    (pytango : Bool) (devFailed K : Kind) (F : ErrorFormatter)
    (hKK : anc K K = true) (hKd : anc K devFailed = false) :
    ErrorWidget.findErrorFormatter anc pytango devFailed K =
      ErrorFormatter.base
    ∧ ErrorWidget.findFormatterScan anc
        (ErrorWidget.registerErrorHandler pytango devFailed K F) K = F := by
  have hne : devFailed ≠ K := by
    intro h
    rw [h] at hKd
    rw [hKd] at hKK
    cases hKK
  constructor
  · cases pytango <;>
      simp [ErrorWidget.findErrorFormatter, ErrorWidget.getErrorFormatters,
        ErrorWidget.findFormatterScan, hKd]
  · cases pytango <;>
      simp [ErrorWidget.registerErrorHandler, ErrorWidget.getErrorFormatters,
        dictInsert, hne, ErrorWidget.findFormatterScan, hKd, hKK]

/-- Witness for claim C1: kind `1` (unrelated to `DevFailed`, kind `0`)
is registered with a user formatter, yet resolution still yields the
default, while the discarded dict would have yielded the user
formatter. -/
theorem registerErrorHandler_is_discarded_witness :
    ErrorWidget.findErrorFormatter (fun a b => a == b) true 0 1 =
      ErrorFormatter.base
    ∧ ErrorWidget.findFormatterScan (fun a b => a == b)
        (ErrorWidget.registerErrorHandler true 0 1 (ErrorFormatter.user 5)) 1 =
        ErrorFormatter.user 5 :=
  registerErrorHandler_is_discarded (fun a b => a == b) true 0 1
    (ErrorFormatter.user 5) rfl rfl

/-- Claim C7: `translateError(None, None, None)` on the default formatter
returns a four-tuple whose title is `"Unhandled Error"`, with placeholder
text for the summary (`"None\n"`, the output of Python's
`format_exception_only(None, None)`), detail and origin fields; every
field producer is total on the null triple (no operation in the bodies
can raise). -/
theorem translateError_null (env : PygmentsEnv) :
    BaseErrorFormatterPlugin.translateError env none none none =
      ("Unhandled Error", "None\n",
       "<html><body><pre>None\n</pre></body></html>",
       "<html><head><style type=\"text/css\">" ++
         (if env.available then env.styleDefs else "") ++
         "</style></head><body>" ++
         (if env.available then env.highlight "None\n"
          else "<pre>None\n</pre>") ++ "</body></html>") := by
  rcases env with ⟨avail, hl, sd⟩
  cases avail <;>
    simp [BaseErrorFormatterPlugin.translateError,
      BaseErrorFormatterPlugin.toTitle, BaseErrorFormatterPlugin.toErrorHtml,
      BaseErrorFormatterPlugin.toDetailedErrorHtml,
      BaseErrorFormatterPlugin.toOriginHtml, formatExceptionOnly,
      formatException]

/-- Claim C8 is false on the code: `TangoErrorFormatterPlugin.toErrorHtml`
dereferences `err_value.args[0].desc`, so with a null error value the call
raises (an attribute error on `None`) instead of producing a placeholder
string. -/
theorem tango_toErrorHtml_null_raises :
    TangoErrorFormatterPlugin.toErrorHtml none none none = none := rfl

/-- Claim C8 (amended): the four field producers of the default formatter
and the title and origin producers of the Tango formatter tolerate a null
value and trace, producing fixed placeholder text without raising; the
Tango formatter's summary and detail producers, which dereference the
error value, raise on a null value. -/
theorem formatter_null_tolerance (env : PygmentsEnv) :
    BaseErrorFormatterPlugin.toTitle none none none = "Unhandled Error"
    ∧ BaseErrorFormatterPlugin.toErrorHtml none none none = "None\n"
    ∧ BaseErrorFormatterPlugin.toDetailedErrorHtml none none none =
        "<html><body><pre>None\n</pre></body></html>"
    ∧ BaseErrorFormatterPlugin.toOriginHtml env none none none =
        "<html><head><style type=\"text/css\">" ++
          (if env.available then env.styleDefs else "") ++
          "</style></head><body>" ++
          (if env.available then env.highlight "None\n"
           else "<pre>None\n</pre>") ++ "</body></html>"
    ∧ TangoErrorFormatterPlugin.toTitle none none none = "Tango Error"
    ∧ TangoErrorFormatterPlugin.toOriginHtml env none none none =
        "<html><head><style type=\"text/css\">" ++
          (if env.available then env.styleDefs else "") ++
          "</style></head><body>" ++
          (if env.available then env.highlight "None\n"
           else "<pre>None\n</pre>") ++ "</body></html>"
    ∧ TangoErrorFormatterPlugin.toErrorHtml none none none = none
    ∧ TangoErrorFormatterPlugin.toDetailedErrorHtml env none none none =
        none := by
  rcases env with ⟨avail, hl, sd⟩
  cases avail <;>
    simp [BaseErrorFormatterPlugin.toTitle,
      BaseErrorFormatterPlugin.toErrorHtml,
      BaseErrorFormatterPlugin.toDetailedErrorHtml,
      BaseErrorFormatterPlugin.toOriginHtml,
      TangoErrorFormatterPlugin.toTitle,
      TangoErrorFormatterPlugin.toOriginHtml,
      TangoErrorFormatterPlugin.toErrorHtml,
      TangoErrorFormatterPlugin.toDetailedErrorHtml,
      formatExceptionOnly, formatException]

/-- Claim C9 is false on the code: when the user has checked the dialog's
do-not-show-again checkbox, a later uncaught error dispatched to the
installed message-dialog plugin produces zero terminal actions — the
handler returns `None` (falsy), so nothing is rendered and no configured
delegate (the platform default handler) is invoked: the error is silently
lost with no raw trace anywhere. -/
theorem messageDialog_suppressed_silent_loss :
    MessageDialogExceptionPlugin.call (some ()) (some ⟨true⟩) true =
      (some ⟨true⟩, PyRet.none, []) := rfl

/-- Claim C9 (amended): a dispatched uncaught error produces the rendered
dialog — plus a pass-through to the configured delegate, i.e. both
actions — when an application exists and the dialog is not suppressed,
and produces no terminal action at all when the dialog was suppressed via
the do-not-show-again checkbox (or no application exists); "exactly one
terminal action" holds only for an unsuppressed dispatch with no delegate
configured. -/
theorem messageDialog_terminal_actions (app : Option App)
    (st : Option MsgBoxState) (hasTarget : Bool) :
    (MessageDialogExceptionPlugin.call app st hasTarget).2.2 =
      (if app.isNone || MessageDialogExceptionPlugin.suppressed st then []
       else if hasTarget then [TerminalAction.rendered,
         TerminalAction.passThrough]
       else [TerminalAction.rendered])
    ∧ ((MessageDialogExceptionPlugin.call app st hasTarget).2.2.length = 1 ↔
        app.isSome = true
        ∧ MessageDialogExceptionPlugin.suppressed st = false
        ∧ hasTarget = false) := by
  cases app with
  | none =>
    cases st with
    | none => cases hasTarget <;> decide
    | some s =>
      cases s with
      | mk b => cases b <;> cases hasTarget <;> decide
  | some a =>
    cases a
    cases st with
    | none => cases hasTarget <;> decide
    | some s =>
      cases s with
      | mk b => cases b <;> cases hasTarget <;> decide
